import Mathlib

/-
Verification of the points-tile content loader (Source/Scene/Points3DTileContent.js)
against its natural-language specification.

The development shallowly embeds the loader:
* byte buffers are `List Nat` (each entry one byte, reads reduced mod 256;
  out-of-range reads are totalized with 0);
* the fixed-size header walk of `initialize` (source lines 157-195) is `parseHeader`;
* the decoded feature-table JSON is a structure of the optional keys the source
  consults, and the external feature-table accessor is modelled from the spec;
* the shader-source synthesis (lines 270-333) is embedded as string-building
  functions, byte for byte (literal braces written with escapes);
* GPU resources (vertex array, shader program, draw command) are value records,
  and their creation order is recorded in a trace so that "failure before any
  GPU resource is created" is a statement about the trace;
* the promise continuation installed by `request` (lines 140-151) is embedded as
  a pure function of the fetch outcome and the destroyed flag, following the
  then/otherwise dataflow of the when.js promise chain.
-/

namespace Pnts

/-- The members of `Core/ComponentDatatype` that the source file names (with
correct spelling). -/
inductive ComponentDatatype
  | FLOAT
  | UNSIGNED_BYTE
  | UNSIGNED_SHORT
deriving DecidableEq

/-- Source line 239 writes `ComponentDatatype.UNISGNED_BYTE`, a misspelled member
name; in JavaScript that property access evaluates to `undefined`, embedded here
as `none`. -/
def ComponentDatatype_UNISGNED_BYTE : Option ComponentDatatype := none

/-- Modelled from the spec: the render-pass buckets of the renderer collaborator
(`Scene/Pass`, not under src/) are the opaque and translucent passes. -/
inductive Pass
  | OPAQUE
  | TRANSLUCENT
deriving DecidableEq

/-- The member access `Pass.OPAQUE` of source line 468. -/
def Pass_OPAQUE : Option Pass := some Pass.OPAQUE

/-- Source line 468 writes `Pass.isTranslucent`; the pass enum has no such member
(its members are the passes themselves, e.g. OPAQUE and TRANSLUCENT), so in
JavaScript this property access evaluates to `undefined`, embedded as `none`. -/
def Pass_isTranslucent : Option Pass := none

/-- Modelled from the spec: `Scene/BlendingState` member used at line 454. -/
inductive BlendingState
  | ALPHA_BLEND
deriving DecidableEq

/-- `Core/Color` stores normalized floats; every color the loader builds comes
from bytes via `Color.fromBytes`, so colors are embedded by their byte values
(component/255 is the float the source stores). -/
structure Color where
  red : Nat
  green : Nat
  blue : Nat
  alpha : Nat
deriving DecidableEq

/-- `Color.WHITE` (bytes of the float color (1,1,1,1)). -/
def Color.WHITE : Color := ⟨255, 255, 255, 255⟩

/-- `Color.DARKGRAY` (#A9A9A9, opaque). -/
def Color.DARKGRAY : Color := ⟨169, 169, 169, 255⟩

/-- `Color.fromBytes`: inputs are Uint8 values (reduced mod 256 to totalize). -/
def Color.fromBytes (r g b a : Nat) : Color := ⟨r % 256, g % 256, b % 256, a % 256⟩

/-- The float comparison `color.alpha < 1.0` of source line 244: the stored float
alpha is byte/255, so it is `< 1.0` exactly when the byte is `< 255`. -/
def Color.alphaLtOne (c : Color) : Bool := c.alpha < 255

/-- `Scene/Cesium3DTileContentState`. -/
inductive Cesium3DTileContentState
  | UNLOADED
  | LOADING
  | PROCESSING
  | READY
  | FAILED
deriving DecidableEq

/-- A when.js deferred: settled at most once. -/
inductive PromiseState
  | pending
  | resolved
  | rejected (message : String)
deriving DecidableEq

/-- Settling an already-settled when.js deferred is a no-op. -/
def PromiseState.resolve : PromiseState → PromiseState
  | .pending => .resolved
  | s => s

/-- Rejecting a when.js deferred (no-op when already settled). -/
def PromiseState.reject (message : String) : PromiseState → PromiseState
  | .pending => .rejected message
  | s => s

/-- The decoded feature-table JSON, restricted to the keys the source consults.
Property values are carried as the decoded component lists (`List Nat`): the
accessor's internal binary walking is an external collaborator (out of scope per
the spec), so each property's decoded value is carried directly. -/
structure FeatureTableJSON where
  POINTS_LENGTH : Option Nat := none
  POSITION : Option (List Nat) := none
  POSITION_QUANTIZED : Option (List Nat) := none
  QUANTIZED_VOLUME_SCALE : Option (List Nat) := none
  RGBA : Option (List Nat) := none
  RGB : Option (List Nat) := none
  CONSTANT_COLOR : Option (List Nat) := none
  NORMAL : Option (List Nat) := none
  NORMAL_OCT16P : Option (List Nat) := none
deriving DecidableEq

/-- One `getGlobalProperty(name, componentType, count)` call on the external
feature-table accessor, as issued by `initialize` (name, the component-type
argument if any, the count argument if any). Modelled from the spec: the
accessor returns the property's typed value when the JSON defines the key and
undefined otherwise. -/
structure PropertyRead where
  name : String
  componentType : Option ComponentDatatype
  count : Option Nat
deriving DecidableEq

/-- The three GPU resources `initialize` creates, in source order
(lines 417, 438, 458). -/
inductive GpuResource
  | vertexArray
  | shaderProgram
  | drawCommand
deriving DecidableEq

/-- One entry of the `attributes` array assembled at source lines 353-415. -/
structure VertexAttribute where
  index : Nat
  vertexBuffer : List Nat
  componentsPerAttribute : Nat
  componentDatatype : ComponentDatatype
  normalize : Bool
  offsetInBytes : Nat
  strideInBytes : Nat
deriving DecidableEq

/-- The render-state descriptor assembled at source lines 445-456: `depthTest`
always present, `depthMask`/`blending` only combined in when translucent
(`none` = key absent from the descriptor, so the render-state cache default
applies). -/
structure RenderStateDesc where
  depthTestEnabled : Bool
  depthMask : Option Bool := none
  blending : Option BlendingState := none
deriving DecidableEq

/-- The arguments of `ShaderProgram.fromCache` (source lines 438-443). -/
structure ShaderProgramDesc where
  vertexShaderSource : String
  fragmentShaderSource : String
  attributeLocations : List (String × Nat)
deriving DecidableEq

/-- `Core/PrimitiveType` member used at line 462. -/
inductive PrimitiveType
  | POINTS
deriving DecidableEq

/-- The `DrawCommand` built at source lines 458-470 (bounding volume and model
matrix are external transform math, out of scope; `uniformMapKeys` records which
uniforms the uniform map exposes). -/
structure DrawCommand where
  cull : Bool
  primitiveType : PrimitiveType
  vertexArray : List VertexAttribute
  count : Nat
  shaderProgram : ShaderProgramDesc
  uniformMapKeys : List String
  renderState : RenderStateDesc
  pass : Option Pass
deriving DecidableEq

/-- The fields of a `Points3DTileContent` instance that the embedded code reads
or writes. -/
structure ContentState where
  constantColor : Color
  pointSize : ℚ
  quantizedVolumeScale : Option (List Nat)
  drawCommand : Option DrawCommand
  state : Cesium3DTileContentState
  contentReadyToProcessPromise : PromiseState
  readyPromise : PromiseState
deriving DecidableEq

/-- The constructor (source lines 68-85): opaque white constant color, point
size 2.0, no quantization scale, placeholder draw command, UNLOADED, both
deferreds pending. -/
def initialContent : ContentState :=
  { constantColor := Color.WHITE
    pointSize := 2
    quantizedVolumeScale := none
    drawCommand := none
    state := Cesium3DTileContentState.UNLOADED
    contentReadyToProcessPromise := PromiseState.pending
    readyPromise := PromiseState.pending }

/-- `sizeOfUint32` (source line 124). -/
def sizeOfUint32 : Nat := 4

/-- One byte of the buffer (Uint8Array access; out-of-range totalized with 0). -/
def byteAt (buf : List Nat) (i : Nat) : Nat := ((buf.get? i).getD 0) % 256

/-- `DataView.getUint32(i, true)`: little-endian 32-bit read. -/
def getUint32 (buf : List Nat) (i : Nat) : Nat :=
  byteAt buf i + 256 * byteAt buf (i + 1) + 65536 * byteAt buf (i + 2) +
    16777216 * byteAt buf (i + 3)

/-- `getMagic`: the 4 bytes at the offset decoded as a string. -/
def getMagic (buf : List Nat) (i : Nat) : String :=
  String.mk (((buf.drop i).take 4).map Char.ofNat)

/-- The `DeveloperError`s thrown by `initialize` (the spec's `FormatError`
taxonomy), in source order. -/
inductive InitError
  | invalidMagic (magic : String)
  | unsupportedVersion (version : Nat)
  | featureTableZeroLength
  | pointsLengthUndefined
  | quantizedVolumeScaleUndefined
  | positionUndefined
deriving DecidableEq

/-- The error messages of the corresponding `throw new DeveloperError(...)`. -/
def InitError.message : InitError → String
  | .invalidMagic m => "Invalid Points tile.  Expected magic=pnts.  Read magic=" ++ m
  | .unsupportedVersion v =>
      "Only Points tile version 1 is supported.  Version " ++ toString v ++ " is not."
  | .featureTableZeroLength => "Feature table must have a byte length greater than zero"
  | .pointsLengthUndefined => "Feature table global property: POINTS_LENGTH must be defined"
  | .quantizedVolumeScaleUndefined =>
      "Global property: QUANTIZED_VOLUME_SCALE must be defined for quantized positions."
  | .positionUndefined => "Either POSITION or POSITION_QUANTIZED must be defined."

/-- The result of the fixed-size header walk of `initialize`
(source lines 157-195): magic, version, the two feature-table lengths, and the
byte ranges (with their starting offsets, i.e. the successive values of the
source's `byteOffset` variable) of the feature-table JSON and binary. -/
structure ParsedHeader where
  magic : String
  version : Nat
  featureTableJSONByteLength : Nat
  featureTableBinaryByteLength : Nat
  featureTableJSONStart : Nat
  featureTableJSONBytes : List Nat
  featureTableBinaryStart : Nat
  featureTableBinary : List Nat
deriving DecidableEq

/-- Source lines 157-195: validate magic and version, skip `byteLength`, read the
two feature-table lengths, then slice the JSON bytes and the binary blob that
immediately follows them. -/
def parseHeader (arrayBuffer : List Nat) (byteOffset0 : Nat) : Except InitError ParsedHeader :=
  let magic := getMagic arrayBuffer byteOffset0
  if magic ≠ "pnts" then Except.error (InitError.invalidMagic magic) else
  let byteOffset1 := byteOffset0 + sizeOfUint32
  let version := getUint32 arrayBuffer byteOffset1
  if version ≠ 1 then Except.error (InitError.unsupportedVersion version) else
  let byteOffset2 := byteOffset1 + sizeOfUint32
  let byteOffset3 := byteOffset2 + sizeOfUint32
  let featureTableJSONByteLength := getUint32 arrayBuffer byteOffset3
  if featureTableJSONByteLength = 0 then Except.error InitError.featureTableZeroLength else
  let byteOffset4 := byteOffset3 + sizeOfUint32
  let featureTableBinaryByteLength := getUint32 arrayBuffer byteOffset4
  let byteOffset5 := byteOffset4 + sizeOfUint32
  let featureTableJSONBytes := (arrayBuffer.drop byteOffset5).take featureTableJSONByteLength
  let byteOffset6 := byteOffset5 + featureTableJSONByteLength
  let featureTableBinary := (arrayBuffer.drop byteOffset6).take featureTableBinaryByteLength
  Except.ok
    { magic := magic
      version := version
      featureTableJSONByteLength := featureTableJSONByteLength
      featureTableBinaryByteLength := featureTableBinaryByteLength
      featureTableJSONStart := byteOffset5
      featureTableJSONBytes := featureTableJSONBytes
      featureTableBinaryStart := byteOffset6
      featureTableBinary := featureTableBinary }

/-- The five flags the source derives while resolving positions, colors and
normals (lines 207-263). -/
structure Flags where
  isQuantized : Bool
  hasColors : Bool
  isTranslucent : Bool
  hasNormals : Bool
  isOctEncoded16P : Bool
deriving DecidableEq

/-- The vertex-shader source synthesized at lines 270-327, byte for byte
(braces written as escapes). -/
def buildVertexShaderSource (f : Flags) : String :=
  let vs0 := "attribute vec3 a_position; \n" ++
             "varying vec4 v_color; \n" ++
             "uniform float u_pointSize; \n" ++
             "uniform vec4 u_constantColor; \n"
  let vs1 := vs0 ++
    (if f.hasColors then
      (if f.isTranslucent then "attribute vec4 a_color; \n"
       else "attribute vec3 a_color; \n")
     else "")
  let vs2 := vs1 ++
    (if f.hasNormals then
      (if f.isOctEncoded16P then "attribute vec2 a_normal; \n"
       else "attribute vec3 a_normal; \n")
     else "")
  let vs3 := vs2 ++ (if f.isQuantized then "uniform vec3 u_quantizedVolumeScale; \n" else "")
  let vs4 := vs3 ++ "void main() \n" ++ "\x7b \n"
  let vs5 := vs4 ++
    (if f.hasColors then
      (if f.isTranslucent then "    vec4 color = a_color * u_constantColor; \n"
       else "    vec4 color =  vec4(a_color * u_constantColor.rgb, u_constantColor.a); \n")
     else "    vec4 color = u_constantColor; \n")
  let vs6 := vs5 ++
    (if f.hasNormals then
      ((if f.isOctEncoded16P then "    vec3 normal = czm_octDecode(a_normal); \n"
        else "    vec3 normal = a_normal; \n") ++
       "    normal = czm_normal * normal; \n" ++
       "    color *= max(dot(normal, czm_sunDirectionEC), 0.0); \n")
     else "")
  let vs7 := vs6 ++
    (if f.isQuantized then "    vec3 position = a_position * u_quantizedVolumeScale; \n"
     else "    vec3 position = a_position; \n")
  vs7 ++ "    v_color = color; \n" ++
    "    gl_Position = czm_modelViewProjection * vec4(position, 1.0); \n" ++
    "    gl_PointSize = pointSize; \n" ++
    "\x7d \n"

/-- The fragment-shader source of lines 329-333 (a single constant string). -/
def fragmentShaderSource : String :=
  "varying vec4 v_color; \n" ++
  "void main() \n" ++
  "\x7b \n" ++
  "    gl_FragColor = v_color; \n" ++
  "\x7d \n"

/-- The keys of the uniform map assembled at lines 336-351. -/
def uniformMapKeys (isQuantized : Bool) : List String :=
  ["u_pointSize", "u_constantColor"] ++
    (if isQuantized then ["u_quantizedVolumeScale"] else [])

/-- Source line 353. -/
def positionAttributeLocation : Nat := 0

/-- Source line 354. -/
def colorAttributeLocation : Nat := 1

/-- Source line 355. -/
def normalAttributeLocation : Nat := 2

/-- The `attributes` array assembled at source lines 357-415: position always
first, then the color attribute when per-point colors exist, then the normal
attribute when normals exist. -/
def buildAttributes (f : Flags) (positions colors normals : List Nat) :
    List VertexAttribute :=
  let attrs : List VertexAttribute :=
    if f.isQuantized then
      [{ index := positionAttributeLocation
         vertexBuffer := positions
         componentsPerAttribute := 3
         componentDatatype := ComponentDatatype.UNSIGNED_SHORT
         normalize := true
         offsetInBytes := 0
         strideInBytes := 0 }]
    else
      [{ index := positionAttributeLocation
         vertexBuffer := positions
         componentsPerAttribute := 3
         componentDatatype := ComponentDatatype.FLOAT
         normalize := false
         offsetInBytes := 0
         strideInBytes := 0 }]
  let attrs := attrs ++
    (if f.hasColors then
      [{ index := colorAttributeLocation
         vertexBuffer := colors
         componentsPerAttribute := if f.isTranslucent then 4 else 3
         componentDatatype := ComponentDatatype.UNSIGNED_BYTE
         normalize := true
         offsetInBytes := 0
         strideInBytes := 0 }]
     else [])
  attrs ++
    (if f.hasNormals then
      (if f.isOctEncoded16P then
        [{ index := normalAttributeLocation
           vertexBuffer := normals
           componentsPerAttribute := 2
           componentDatatype := ComponentDatatype.UNSIGNED_BYTE
           normalize := false
           offsetInBytes := 0
           strideInBytes := 0 }]
       else
        [{ index := normalAttributeLocation
           vertexBuffer := normals
           componentsPerAttribute := 3
           componentDatatype := ComponentDatatype.FLOAT
           normalize := false
           offsetInBytes := 0
           strideInBytes := 0 }])
     else [])

/-- The `attributeLocations` map of source lines 422-436. -/
def buildAttributeLocations (hasColors hasNormals : Bool) : List (String × Nat) :=
  [("a_position", positionAttributeLocation)] ++
    (if hasColors then [("a_color", colorAttributeLocation)] else []) ++
    (if hasNormals then [("a_normal", normalAttributeLocation)] else [])

/-- The render state of source lines 445-456. -/
def buildRenderState (isTranslucent : Bool) : RenderStateDesc :=
  if isTranslucent then
    { depthTestEnabled := true
      depthMask := some false
      blending := some BlendingState.ALPHA_BLEND }
  else
    { depthTestEnabled := true }

/-- The `pass` field of the draw command (source line 468):
`isTranslucent ? Pass.isTranslucent : Pass.OPAQUE`. -/
def drawCommandPass (isTranslucent : Bool) : Option Pass :=
  if isTranslucent then Pass_isTranslucent else Pass_OPAQUE

/-- Indexing a typed array returned by the accessor (in-range in the source;
totalized with 0). -/
def elemAt (v : List Nat) (i : Nat) : Nat := (v.get? i).getD 0

instance {ε α : Type} [DecidableEq ε] [DecidableEq α] : DecidableEq (Except ε α) := fun x y =>
  match x, y with
  | Except.error a, Except.error b =>
      if h : a = b then Decidable.isTrue (by rw [h])
      else Decidable.isFalse (fun hc => h (Except.error.inj hc))
  | Except.ok a, Except.ok b =>
      if h : a = b then Decidable.isTrue (by rw [h])
      else Decidable.isFalse (fun hc => h (Except.ok.inj hc))
  | Except.error _, Except.ok _ => Decidable.isFalse (fun hc => Except.noConfusion hc)
  | Except.ok _, Except.error _ => Decidable.isFalse (fun hc => Except.noConfusion hc)

/-- Everything one run of `initialize` produces: the result (ok, or the thrown
`DeveloperError`), the content fields after the run (partial mutations applied
on the error paths), the `getGlobalProperty` calls issued, and the GPU
resources created, both in source order. -/
structure InitOutcome where
  result : Except InitError Unit
  content : ContentState
  reads : List PropertyRead
  gpuResources : List GpuResource
deriving DecidableEq

/-- Whether the run threw. -/
def InitOutcome.failed (o : InitOutcome) : Bool :=
  match o.result with
  | Except.ok _ => false
  | Except.error _ => true

/-- Source lines 230-487: everything `initialize` does after the position
resolution succeeded — resolve colors (lines 230-247) and normals (249-258),
apply the dark-gray fallback (265-268), synthesize the shaders, assemble the
vertex array, shader program, render state and draw command, and advance the
lifecycle state (472-478). This part of `initialize` cannot throw. -/
def initTileAfterPositions (content1 : ContentState) (reads1 : List PropertyRead)
    (featureTableJSON : FeatureTableJSON) (pointsLength : Nat)
    (positions : List Nat) (isQuantized : Bool) : InitOutcome :=
  -- Get the colors (lines 230-247)
  let colorsRes : Option (List Nat) × Bool × Bool × ContentState × List PropertyRead :=
    match featureTableJSON.RGBA with
    | some v =>
        (some v, true, false, content1,
          reads1 ++ [⟨"RGBA", some ComponentDatatype.UNSIGNED_BYTE, some (pointsLength * 4)⟩])
    | none =>
      match featureTableJSON.RGB with
      | some v =>
          -- line 239 passes the misspelled member UNISGNED_BYTE, i.e. undefined
          (some v, false, false, content1,
            reads1 ++ [⟨"RGB", ComponentDatatype_UNISGNED_BYTE, some (pointsLength * 3)⟩])
      | none =>
        match featureTableJSON.CONSTANT_COLOR with
        | some v =>
            let constantColor :=
              Color.fromBytes (elemAt v 0) (elemAt v 1) (elemAt v 2) (elemAt v 3)
            (none, constantColor.alphaLtOne, true,
              { content1 with constantColor := constantColor },
              reads1 ++ [⟨"CONSTANT_COLOR", some ComponentDatatype.UNSIGNED_BYTE, some 4⟩])
        | none => (none, false, false, content1, reads1)
  let colors := colorsRes.1
  let isTranslucent := colorsRes.2.1
  let isConstantColor := colorsRes.2.2.1
  let content2 := colorsRes.2.2.2.1
  let reads2 := colorsRes.2.2.2.2
  -- Get the normals (lines 249-258)
  let normalsRes : Option (List Nat) × Bool × List PropertyRead :=
    match featureTableJSON.NORMAL with
    | some v =>
        (some v, false,
          reads2 ++ [⟨"NORMAL", some ComponentDatatype.FLOAT, some (pointsLength * 3)⟩])
    | none =>
      match featureTableJSON.NORMAL_OCT16P with
      | some v =>
          (some v, true,
            reads2 ++ [⟨"NORMAL_OCT16P", some ComponentDatatype.UNSIGNED_BYTE,
              some (pointsLength * 2)⟩])
      | none => (none, false, reads2)
  let normals := normalsRes.1
  let isOctEncoded16P := normalsRes.2.1
  let reads3 := normalsRes.2.2
  let hasColors := colors.isSome
  let hasNormals := normals.isSome
  -- Default constant color (lines 265-268)
  let content3 :=
    if !hasColors && !isConstantColor then { content2 with constantColor := Color.DARKGRAY }
    else content2
  let f : Flags := ⟨isQuantized, hasColors, isTranslucent, hasNormals, isOctEncoded16P⟩
  let vs := buildVertexShaderSource f
  let fs := fragmentShaderSource
  -- new VertexArray (line 417)
  let vertexArray := buildAttributes f positions (colors.getD []) (normals.getD [])
  let gpu1 := [GpuResource.vertexArray]
  -- ShaderProgram.fromCache (line 438)
  let shaderProgram : ShaderProgramDesc :=
    { vertexShaderSource := vs
      fragmentShaderSource := fs
      attributeLocations := buildAttributeLocations hasColors hasNormals }
  let gpu2 := gpu1 ++ [GpuResource.shaderProgram]
  -- new DrawCommand (line 458)
  let drawCommand : DrawCommand :=
    { cull := false
      primitiveType := PrimitiveType.POINTS
      vertexArray := vertexArray
      count := pointsLength
      shaderProgram := shaderProgram
      uniformMapKeys := uniformMapKeys isQuantized
      renderState := buildRenderState isTranslucent
      pass := drawCommandPass isTranslucent }
  let gpu3 := gpu2 ++ [GpuResource.drawCommand]
  -- lines 472-478
  let content4 :=
    { content3 with
        drawCommand := some drawCommand
        state := Cesium3DTileContentState.PROCESSING
        contentReadyToProcessPromise := content3.contentReadyToProcessPromise.resolve }
  let content5 :=
    { content4 with
        state := Cesium3DTileContentState.READY
        readyPromise := content4.readyPromise.resolve }
  { result := Except.ok ()
    content := content5
    reads := reads3
    gpuResources := gpu3 }

/-- `Points3DTileContent.prototype.initialize` (source lines 157-487).
`parseFeatureTableJSON` stands for `JSON.parse` composed with
`getStringFromTypedArray` (external collaborators): it decodes the JSON byte
slice into the key set the source consults. -/
def initTile (parseFeatureTableJSON : List Nat → FeatureTableJSON)
    (content0 : ContentState) (arrayBuffer : List Nat) (byteOffset : Nat) : InitOutcome :=
  match parseHeader arrayBuffer byteOffset with
  | Except.error e =>
      { result := Except.error e, content := content0, reads := [], gpuResources := [] }
  | Except.ok hdr =>
    let featureTableJSON := parseFeatureTableJSON hdr.featureTableJSONBytes
    -- line 198: getGlobalProperty('POINTS_LENGTH')
    let reads0 : List PropertyRead := [⟨"POINTS_LENGTH", none, none⟩]
    match featureTableJSON.POINTS_LENGTH with
    | none =>
        { result := Except.error InitError.pointsLengthUndefined
          content := content0, reads := reads0, gpuResources := [] }
    | some pointsLength =>
      -- Get the positions (lines 207-228)
      match featureTableJSON.POSITION with
      | some positions =>
          initTileAfterPositions content0
            (reads0 ++ [⟨"POSITION", some ComponentDatatype.FLOAT, some (pointsLength * 3)⟩])
            featureTableJSON pointsLength positions false
      | none =>
        match featureTableJSON.POSITION_QUANTIZED with
        | some positions =>
          let reads1 := reads0 ++
            [⟨"POSITION_QUANTIZED", some ComponentDatatype.UNSIGNED_SHORT,
               some (pointsLength * 3)⟩,
             ⟨"QUANTIZED_VOLUME_SCALE", some ComponentDatatype.FLOAT, some 3⟩]
          -- line 216: the scale is assigned to the field before it is checked
          let quantizedVolumeScale := featureTableJSON.QUANTIZED_VOLUME_SCALE
          let content1 := { content0 with quantizedVolumeScale := quantizedVolumeScale }
          match quantizedVolumeScale with
          | none =>
              { result := Except.error InitError.quantizedVolumeScaleUndefined
                content := content1, reads := reads1, gpuResources := [] }
          | some _ =>
              initTileAfterPositions content1 reads1 featureTableJSON pointsLength
                positions true
        | none =>
            { result := Except.error InitError.positionUndefined
              content := content0, reads := reads0, gpuResources := [] }

/-- The outcome delivered by the external fetch collaborator. -/
inductive FetchResult
  | success (arrayBuffer : List Nat)
  | failure (message : String)
deriving DecidableEq

/-- What one run of the continuation installed by `request` produces. -/
structure ResolveOutcome where
  content : ContentState
  ranInitTile : Bool
  thrownToCaller : Option String
deriving DecidableEq

/-- The promise continuation installed by `request` (source lines 140-151),
following the when.js then/otherwise dataflow: a fetch failure reaches the
otherwise handler; a fetch success first runs the then-callback, which returns
`when.reject('tileset is destroyed')` when the content is destroyed and
otherwise calls `initialize`; any rejection produced inside the then-callback —
including the destroyed-check rejection and a `DeveloperError` escaping
`initialize` — also reaches the otherwise handler, which sets the FAILED state
and rejects the ready promise. Nothing escapes the chain to the caller. -/
def resolveFetch (parseFeatureTableJSON : List Nat → FeatureTableJSON)
    (destroyed : Bool) (content : ContentState) (r : FetchResult) : ResolveOutcome :=
  match r with
  | FetchResult.failure message =>
      { content :=
          { content with
              state := Cesium3DTileContentState.FAILED
              readyPromise := content.readyPromise.reject message }
        ranInitTile := false
        thrownToCaller := none }
  | FetchResult.success arrayBuffer =>
    if destroyed then
      { content :=
          { content with
              state := Cesium3DTileContentState.FAILED
              readyPromise := content.readyPromise.reject "tileset is destroyed" }
        ranInitTile := false
        thrownToCaller := none }
    else
      let out := initTile parseFeatureTableJSON content arrayBuffer 0
      match out.result with
      | Except.ok _ =>
          { content := out.content, ranInitTile := true, thrownToCaller := none }
      | Except.error e =>
          { content :=
              { out.content with
                  state := Cesium3DTileContentState.FAILED
                  readyPromise := out.content.readyPromise.reject e.message }
            ranInitTile := true
            thrownToCaller := none }

/-
GLSL identifier analysis. The synthesized shaders are strings; to state that
every identifier a shader references is declared in it, the string is tokenized
mechanically: maximal runs of identifier characters become identifier tokens,
every other non-whitespace character becomes a symbol token.
-/

/-- Identifier characters of GLSL. -/
def isIdentChar (c : Char) : Bool := c.isAlpha || c.isDigit || c = '_'

/-- A GLSL token: an identifier-like word, or a single symbol character. -/
inductive GlslTok
  | id (s : String)
  | sym (c : Char)
deriving DecidableEq

/-- Tokenizer worker: `acc` holds the current word, reversed. -/
def glslTokensAux : List Char → List Char → List GlslTok
  | [], acc => if acc.isEmpty then [] else [GlslTok.id (String.mk acc.reverse)]
  | c :: cs, acc =>
    if isIdentChar c then glslTokensAux cs (c :: acc)
    else
      let rest :=
        if c = ' ' || c = '\n' then glslTokensAux cs []
        else GlslTok.sym c :: glslTokensAux cs []
      if acc.isEmpty then rest else GlslTok.id (String.mk acc.reverse) :: rest

/-- The token list of a shader source string. -/
def glslTokens (s : String) : List GlslTok := glslTokensAux s.data []

/-- The GLSL type keywords the synthesized shaders use. -/
def glslTypes : List String := ["float", "vec2", "vec3", "vec4"]

/-- The non-type GLSL keywords the synthesized shaders use. -/
def glslKeywords : List String := ["attribute", "uniform", "varying", "void", "main"]

/-- Identifiers provided by GLSL or the host renderer rather than declared in the
shader text: the gl_ outputs and the czm_ automatic uniforms/functions, plus the
GLSL intrinsic functions the shaders call. -/
def glslProvided : List String :=
  ["gl_Position", "gl_PointSize", "gl_FragColor",
   "czm_octDecode", "czm_normal", "czm_sunDirectionEC", "czm_modelViewProjection",
   "max", "dot"]

/-- The (type, name) pairs declared by the shader: a type keyword token directly
followed by an identifier token. (A constructor call such as vec4(...) has an
intervening parenthesis symbol, so it never forms a pair.) This covers
attribute/uniform/varying declarations and main-body local declarations alike. -/
def declaredPairs : List GlslTok → List (String × String)
  | GlslTok.id ty :: GlslTok.id nm :: rest =>
      if ty ∈ glslTypes then (ty, nm) :: declaredPairs (GlslTok.id nm :: rest)
      else declaredPairs (GlslTok.id nm :: rest)
  | _ :: rest => declaredPairs rest
  | [] => []

/-- The names the shader declares. -/
def declaredIdents (toks : List GlslTok) : List String := (declaredPairs toks).map Prod.snd

/-- Whether a token word is something other than a referenced identifier: a
keyword, a type, a provided builtin, or a numeric literal. -/
def isNonReference (nm : String) : Bool :=
  glslKeywords.contains nm || glslTypes.contains nm || glslProvided.contains nm ||
    (match nm.data with
     | [] => true
     | c :: _ => c.isDigit)

/-- The identifiers a token stream references: every identifier token that is not
a keyword, type, provided builtin or numeric literal, and is not directly
preceded by a dot (a field/swizzle access selects a member, not an identifier
of the shader's scope). -/
def referencedIdents : List GlslTok → List String
  | GlslTok.sym c :: GlslTok.id nm :: rest =>
      if c = '.' then referencedIdents rest
      else referencedIdents (GlslTok.id nm :: rest)
  | GlslTok.id nm :: rest =>
      if isNonReference nm then referencedIdents rest else nm :: referencedIdents rest
  | _ :: rest => referencedIdents rest
  | [] => []

/-- The referenced identifiers of a shader source that the shader never
declares. For an internally consistent shader this list is empty. -/
def undeclaredIdents (s : String) : List String :=
  let toks := glslTokens s
  (referencedIdents toks).filter (fun nm => !(declaredIdents toks).contains nm)

/-- The identifier assigned to gl_PointSize: the token directly after the first
occurrence of gl_PointSize followed by the assignment symbol. -/
def pointSizeAssignedFrom : List GlslTok → Option String
  | GlslTok.id g :: GlslTok.sym e :: GlslTok.id src :: rest =>
      if g = "gl_PointSize" && e = '=' then some src
      else pointSizeAssignedFrom (GlslTok.sym e :: GlslTok.id src :: rest)
  | _ :: rest => pointSizeAssignedFrom rest
  | [] => none

/-
Concrete inputs used by counterexamples and witnesses.
-/

/-- A minimal well-formed container: magic pnts, version 1, byteLength field 0
(never read), feature-table JSON length 2, binary length 0, followed by the two
JSON bytes. -/
def pntsBuf : List Nat :=
  [112, 110, 116, 115, 1, 0, 0, 0, 0, 0, 0, 0, 2, 0, 0, 0, 0, 0, 0, 0, 123, 125]

/-- A buffer whose first four bytes spell worm, not pnts. -/
def badMagicBuf : List Nat :=
  [119, 111, 114, 109, 1, 0, 0, 0, 0, 0, 0, 0, 2, 0, 0, 0, 0, 0, 0, 0, 123, 125]

/-- A decoded feature table with POINTS_LENGTH only. -/
def tableOnlyPoints : FeatureTableJSON := { POINTS_LENGTH := some 1 }

/-- A decoded feature table with both POSITION and POSITION_QUANTIZED and no
QUANTIZED_VOLUME_SCALE. -/
def tableBothPositions : FeatureTableJSON :=
  { POINTS_LENGTH := some 1
    POSITION := some [0, 0, 0]
    POSITION_QUANTIZED := some [0, 0, 0] }

/-- A decoded feature table resolving to the RGB color variant. -/
def tableRGB : FeatureTableJSON :=
  { POINTS_LENGTH := some 1
    POSITION := some [0, 0, 0]
    RGB := some [10, 20, 30] }

/-- A decoded feature table with positions and no color key. -/
def tableNoColor : FeatureTableJSON :=
  { POINTS_LENGTH := some 1
    POSITION := some [0, 0, 0] }

/-- A decoded feature table with both RGBA and CONSTANT_COLOR. -/
def tableRGBAandConstant : FeatureTableJSON :=
  { POINTS_LENGTH := some 2
    POSITION := some [0, 0, 0, 0, 0, 0]
    RGBA := some [1, 2, 3, 4, 5, 6, 7, 8]
    CONSTANT_COLOR := some [9, 9, 9, 9] }

/-- A quantized feature table without QUANTIZED_VOLUME_SCALE (and no POSITION). -/
def tableQuantizedNoScale : FeatureTableJSON :=
  { POINTS_LENGTH := some 1
    POSITION_QUANTIZED := some [0, 0, 0] }

/-- A content whose request was accepted (source line 141). -/
def loadingContent : ContentState :=
  { initialContent with state := Cesium3DTileContentState.LOADING }

/-- The all-false flag tuple (plain positions, no colors, opaque, no normals). -/
def flagsNone : Flags := ⟨false, false, false, false, false⟩

/-- The header of the minimal container, as `parseHeader` produces it. -/
def pntsHdr : ParsedHeader :=
  { magic := "pnts"
    version := 1
    featureTableJSONByteLength := 2
    featureTableBinaryByteLength := 0
    featureTableJSONStart := 20
    featureTableJSONBytes := [123, 125]
    featureTableBinaryStart := 22
    featureTableBinary := [] }

/-- The five attribute-declaration facts readable off a vertex-shader source:
quantization-scale uniform declared, vec4 color attribute, vec3 color
attribute, vec2 (oct) normal attribute, vec3 normal attribute. -/
def attributeSignature (s : String) : List Bool :=
  let ps := declaredPairs (glslTokens s)
  [ps.contains ("vec3", "u_quantizedVolumeScale"), ps.contains ("vec4", "a_color"),
   ps.contains ("vec3", "a_color"), ps.contains ("vec2", "a_normal"),
   ps.contains ("vec3", "a_normal")]

/-- Flag tuples differing in a way that reaches a vertex attribute: in
quantization, color presence or normal presence, in translucency while both
tuples have per-point colors (it selects the color attribute width), or in oct
encoding while both have normals (it selects the normal attribute width). -/
def RelevantDiff (f g : Flags) : Prop :=
  f.isQuantized ≠ g.isQuantized ∨ f.hasColors ≠ g.hasColors ∨
    f.hasNormals ≠ g.hasNormals ∨
    (f.hasColors = true ∧ g.hasColors = true ∧ f.isTranslucent ≠ g.isTranslucent) ∨
    (f.hasNormals = true ∧ g.hasNormals = true ∧ f.isOctEncoded16P ≠ g.isOctEncoded16P)

set_option maxRecDepth 10000

/-
Shared helper lemmas.
-/

/-- A successful header parse pins down every field of the result: the magic is
pnts, the version (little-endian uint32 at offset b+4) is 1, the feature-table
JSON length (at b+12) is nonzero, and the slices are as the 20-byte header walk
dictates. -/
theorem parseHeader_ok_facts (buf : List Nat) (b : Nat) (hdr : ParsedHeader)
    (hok : parseHeader buf b = Except.ok hdr) :
    getMagic buf b = "pnts" ∧ getUint32 buf (b + 4) = 1 ∧ getUint32 buf (b + 12) ≠ 0 ∧
    hdr = { magic := getMagic buf b
            version := getUint32 buf (b + 4)
            featureTableJSONByteLength := getUint32 buf (b + 12)
            featureTableBinaryByteLength := getUint32 buf (b + 16)
            featureTableJSONStart := b + 20
            featureTableJSONBytes := (buf.drop (b + 20)).take (getUint32 buf (b + 12))
            featureTableBinaryStart := b + 20 + getUint32 buf (b + 12)
            featureTableBinary :=
              (buf.drop (b + 20 + getUint32 buf (b + 12))).take (getUint32 buf (b + 16)) } := by
  unfold parseHeader at hok
  simp only [sizeOfUint32] at hok
  split at hok
  · simp at hok
  next h1 =>
    split at hok
    · simp at hok
    next h2 =>
      split at hok
      · simp at hok
      next h3 =>
        injection hok with hh
        have e1 : b + 4 + 4 + 4 = b + 12 := by omega
        have e2 : b + 4 + 4 + 4 + 4 = b + 16 := by omega
        have e3 : b + 4 + 4 + 4 + 4 + 4 = b + 20 := by omega
        rw [e1, e2, e3] at hh
        refine ⟨by simpa using h1, by simpa using h2, by simpa using h3, hh.symm⟩

/-- The part of `initialize` after position resolution always succeeds. -/
theorem initTileAfterPositions_result (c1 : ContentState) (r1 : List PropertyRead)
    (j : FeatureTableJSON) (n : Nat) (p : List Nat) (q : Bool) :
    (initTileAfterPositions c1 r1 j n p q).result = Except.ok () := rfl

/-- The part of `initialize` after position resolution creates exactly the
vertex array, the shader program and the draw command, in that order. -/
theorem initTileAfterPositions_gpu (c1 : ContentState) (r1 : List PropertyRead)
    (j : FeatureTableJSON) (n : Nat) (p : List Nat) (q : Bool) :
    (initTileAfterPositions c1 r1 j n p q).gpuResources =
      [GpuResource.vertexArray, GpuResource.shaderProgram, GpuResource.drawCommand] := rfl

/-- The draw command built after position resolution: vertex count is the
POINTS_LENGTH value and the primitive type is POINTS. -/
theorem initTileAfterPositions_count (c1 : ContentState) (r1 : List PropertyRead)
    (j : FeatureTableJSON) (n : Nat) (p : List Nat) (q : Bool) :
    ∃ dc, (initTileAfterPositions c1 r1 j n p q).content.drawCommand = some dc ∧
      dc.count = n ∧ dc.primitiveType = PrimitiveType.POINTS :=
  ⟨_, rfl, rfl, rfl⟩

/-- The color/normal resolution and assembly never touch the quantized volume
scale field. -/
theorem initTileAfterPositions_qvs (c1 : ContentState) (r1 : List PropertyRead)
    (j : FeatureTableJSON) (n : Nat) (p : List Nat) (q : Bool) :
    (initTileAfterPositions c1 r1 j n p q).content.quantizedVolumeScale =
      c1.quantizedVolumeScale := by
  unfold initTileAfterPositions
  cases hr : j.RGBA <;> cases hg : j.RGB <;> cases hc : j.CONSTANT_COLOR <;>
    cases hn : j.NORMAL <;> cases hno : j.NORMAL_OCT16P <;>
      simp [hr, hg, hc, hn, hno]

/-
C1. Claim: initialize fails with a FormatError exactly when the magic is not
pnts, the version is not 1, featureTableJSONByteLength is 0, or POINTS_LENGTH
is missing, and every such failure occurs before any GPU resource is created.
The only-if direction is false: a buffer passing all four checks whose table
has no position property also fails (with the position FormatError), so the
claim is corrected to the if direction.
-/

/-- C1 counterexample: on a buffer with magic pnts, version 1, a nonzero
feature-table JSON length, and a decoded table that defines POINTS_LENGTH,
`initialize` still fails (missing position data), so failing with a FormatError
is not equivalent to the four listed conditions. -/
theorem C1_counterexample :
    (initTile (fun _ => tableOnlyPoints) initialContent pntsBuf 0).result =
      Except.error InitError.positionUndefined ∧
    getMagic pntsBuf 0 = "pnts" ∧ getUint32 pntsBuf 4 = 1 ∧ getUint32 pntsBuf 12 ≠ 0 ∧
    tableOnlyPoints.POINTS_LENGTH ≠ none := by decide

/-- C1 (amended): `initialize` fails with a FormatError whenever the 4-byte magic
is not pnts, or the version field (uint32 at offset b+4) is not 1, or
featureTableJSONByteLength (uint32 at offset b+12) is 0, or the decoded feature
table has no POINTS_LENGTH property — and every failure of `initialize` occurs
before any GPU resource (vertex array, shader program, draw command) is
created. (The original "exactly when" fails: missing position data is a further
failure cause, see the counterexample.) -/
theorem C1_amended (pj : List Nat → FeatureTableJSON) (c0 : ContentState)
    (buf : List Nat) (b : Nat)
    (h : getMagic buf b ≠ "pnts" ∨ getUint32 buf (b + 4) ≠ 1 ∨ getUint32 buf (b + 12) = 0 ∨
      ∀ hdr, parseHeader buf b = Except.ok hdr →
        (pj hdr.featureTableJSONBytes).POINTS_LENGTH = none) :
    (initTile pj c0 buf b).failed = true ∧ (initTile pj c0 buf b).gpuResources = [] := by
  unfold initTile
  cases hph : parseHeader buf b with
  | error e => exact ⟨rfl, rfl⟩
  | ok hdr =>
    obtain ⟨hm, hv, hl, _⟩ := parseHeader_ok_facts buf b hdr hph
    have hpl : (pj hdr.featureTableJSONBytes).POINTS_LENGTH = none := by
      rcases h with h | h | h | h
      · exact absurd hm h
      · exact absurd hv h
      · exact absurd h hl
      · exact h hdr hph
    simp [hpl, InitOutcome.failed]

/-- C1 witness: the amended theorem applied to a buffer with a bad magic. -/
theorem C1_amended_witness :
    (initTile (fun _ => tableOnlyPoints) initialContent badMagicBuf 0).failed = true ∧
    (initTile (fun _ => tableOnlyPoints) initialContent badMagicBuf 0).gpuResources = [] :=
  C1_amended (fun _ => tableOnlyPoints) initialContent badMagicBuf 0 (Or.inl (by decide))

/-
C2. Claim: missing both positions is fatal; POSITION_QUANTIZED present without
QUANTIZED_VOLUME_SCALE is fatal; quantizedVolumeScale is set iff positions are
quantized. The middle statement is false when POSITION is also present: the
POSITION branch wins and the missing scale is never checked.
-/

/-- C2 counterexample: a table defining POSITION and POSITION_QUANTIZED but no
QUANTIZED_VOLUME_SCALE initializes successfully (the claim requires a
FormatError whenever POSITION_QUANTIZED is present without the scale). -/
theorem C2_counterexample :
    (initTile (fun _ => tableBothPositions) initialContent pntsBuf 0).result = Except.ok () ∧
    tableBothPositions.POSITION_QUANTIZED ≠ none ∧
    tableBothPositions.QUANTIZED_VOLUME_SCALE = none := by decide

/-- C2 (amended): with a table defining POINTS_LENGTH, (1) if neither POSITION
nor POSITION_QUANTIZED is present, `initialize` fails with the position
FormatError; (2) if POSITION is absent, POSITION_QUANTIZED present and
QUANTIZED_VOLUME_SCALE absent, it fails with the volume-scale FormatError (the
original claim omitted "POSITION absent": when POSITION is also present the
quantized branch is never taken); and (3) on success the tile's
quantizedVolumeScale is set iff positions were quantized (POSITION absent and
POSITION_QUANTIZED present). -/
theorem C2_amended (pj : List Nat → FeatureTableJSON) (c0 : ContentState)
    (buf : List Nat) (b : Nat) (hdr : ParsedHeader)
    (hok : parseHeader buf b = Except.ok hdr)
    (hq0 : c0.quantizedVolumeScale = none) :
    ((pj hdr.featureTableJSONBytes).POINTS_LENGTH ≠ none →
      (pj hdr.featureTableJSONBytes).POSITION = none →
      (pj hdr.featureTableJSONBytes).POSITION_QUANTIZED = none →
      (initTile pj c0 buf b).result = Except.error InitError.positionUndefined) ∧
    ((pj hdr.featureTableJSONBytes).POINTS_LENGTH ≠ none →
      (pj hdr.featureTableJSONBytes).POSITION = none →
      (pj hdr.featureTableJSONBytes).POSITION_QUANTIZED ≠ none →
      (pj hdr.featureTableJSONBytes).QUANTIZED_VOLUME_SCALE = none →
      (initTile pj c0 buf b).result = Except.error InitError.quantizedVolumeScaleUndefined) ∧
    ((initTile pj c0 buf b).failed = false →
      ((initTile pj c0 buf b).content.quantizedVolumeScale ≠ none ↔
        ((pj hdr.featureTableJSONBytes).POSITION = none ∧
          (pj hdr.featureTableJSONBytes).POSITION_QUANTIZED ≠ none))) := by
  refine ⟨?_, ?_, ?_⟩
  · intro hpl hpos hpq
    unfold initTile
    simp only [hok]
    cases hplc : (pj hdr.featureTableJSONBytes).POINTS_LENGTH with
    | none => exact absurd hplc hpl
    | some n => simp only [hpos, hpq]
  · intro hpl hpos hpq hqv
    unfold initTile
    simp only [hok]
    cases hplc : (pj hdr.featureTableJSONBytes).POINTS_LENGTH with
    | none => exact absurd hplc hpl
    | some n =>
      simp only [hpos]
      cases hpqc : (pj hdr.featureTableJSONBytes).POSITION_QUANTIZED with
      | none => exact absurd hpqc hpq
      | some p => simp only [hqv]
  · intro hs
    unfold initTile at hs ⊢
    simp only [hok] at hs ⊢
    cases hplc : (pj hdr.featureTableJSONBytes).POINTS_LENGTH with
    | none => simp [hplc, InitOutcome.failed] at hs
    | some n =>
      simp only [hplc] at hs ⊢
      cases hpos : (pj hdr.featureTableJSONBytes).POSITION with
      | some p =>
        simp only [hpos] at hs ⊢
        rw [initTileAfterPositions_qvs, hq0]
        simp
      | none =>
        simp only [hpos] at hs ⊢
        cases hpq : (pj hdr.featureTableJSONBytes).POSITION_QUANTIZED with
        | none => simp [hpq, InitOutcome.failed] at hs
        | some p =>
          simp only [hpq] at hs ⊢
          cases hqv : (pj hdr.featureTableJSONBytes).QUANTIZED_VOLUME_SCALE with
          | none => simp [hqv, InitOutcome.failed] at hs
          | some s =>
            simp only [hqv] at hs ⊢
            rw [initTileAfterPositions_qvs]
            simp

/-- C2 witness: the amended theorem applied to a quantized table with no
QUANTIZED_VOLUME_SCALE and no POSITION — `initialize` throws the volume-scale
FormatError. -/
theorem C2_amended_witness :
    (initTile (fun _ => tableQuantizedNoScale) initialContent pntsBuf 0).result =
      Except.error InitError.quantizedVolumeScaleUndefined :=
  ((C2_amended (fun _ => tableQuantizedNoScale) initialContent pntsBuf 0 pntsHdr
      (by decide) (by decide)).2.1) (by decide) (by decide) (by decide) (by decide)

/-
C3. Claim: color keys are checked RGBA, then RGB, then CONSTANT_COLOR, first
match winning; RGB is read as unsigned byte x3. The precedence holds, but the
RGB read does not pass UNSIGNED_BYTE: source line 239 misspells the member as
UNISGNED_BYTE, so the component type passed is undefined. The spec states the
intent (unsigned byte x3); the code misspelling is a slip, hence a code bug.
-/

/-- C3: evaluating `initialize` at the failing input (a table resolving to the
RGB variant): the RGB `getGlobalProperty` call passes an undefined component
type (the misspelled `ComponentDatatype.UNISGNED_BYTE` of line 239), not
UNSIGNED_BYTE. The rest of the claim holds: a table with both RGBA and
CONSTANT_COLOR resolves with RGBA semantics (per-point translucent colors,
constant color left untouched), and with no color key the constant color
becomes opaque dark gray. -/
theorem C3_rgb_componentType_undefined :
    (initTile (fun _ => tableRGB) initialContent pntsBuf 0).reads =
      [⟨"POINTS_LENGTH", none, none⟩,
       ⟨"POSITION", some ComponentDatatype.FLOAT, some 3⟩,
       ⟨"RGB", ComponentDatatype_UNISGNED_BYTE, some 3⟩] ∧
    ComponentDatatype_UNISGNED_BYTE = none ∧
    some ComponentDatatype.UNSIGNED_BYTE ≠ ComponentDatatype_UNISGNED_BYTE ∧
    (initTile (fun _ => tableRGBAandConstant) initialContent pntsBuf 0).reads =
      [⟨"POINTS_LENGTH", none, none⟩,
       ⟨"POSITION", some ComponentDatatype.FLOAT, some 6⟩,
       ⟨"RGBA", some ComponentDatatype.UNSIGNED_BYTE, some 8⟩] ∧
    (initTile (fun _ => tableRGBAandConstant) initialContent pntsBuf 0).content.constantColor =
      Color.WHITE ∧
    (initTile (fun _ => tableNoColor) initialContent pntsBuf 0).content.constantColor =
      Color.DARKGRAY := by decide

/-
C4. Claim: for every accepted buffer, the draw description's vertex count
equals the POINTS_LENGTH read from the feature table and its primitive type is
points. Confirmed.
-/

/-- C4: whenever `initialize` succeeds, the draw command it stores has
count = the POINTS_LENGTH value decoded from the feature table and primitive
type POINTS. -/
theorem C4_vertex_count (pj : List Nat → FeatureTableJSON) (c0 : ContentState)
    (buf : List Nat) (b : Nat) (hdr : ParsedHeader) (n : Nat)
    (hok : parseHeader buf b = Except.ok hdr)
    (hn : (pj hdr.featureTableJSONBytes).POINTS_LENGTH = some n)
    (hsucc : (initTile pj c0 buf b).failed = false) :
    ∃ dc, (initTile pj c0 buf b).content.drawCommand = some dc ∧
      dc.count = n ∧ dc.primitiveType = PrimitiveType.POINTS := by
  unfold initTile at hsucc ⊢
  simp only [hok, hn] at hsucc ⊢
  cases hpos : (pj hdr.featureTableJSONBytes).POSITION with
  | some p => exact ⟨_, rfl, rfl, trivial⟩
  | none =>
    simp only [hpos] at hsucc ⊢
    cases hpq : (pj hdr.featureTableJSONBytes).POSITION_QUANTIZED with
    | none => simp [InitOutcome.failed, hpq] at hsucc
    | some p =>
      simp only [hpq] at hsucc ⊢
      cases hqv : (pj hdr.featureTableJSONBytes).QUANTIZED_VOLUME_SCALE with
      | none => simp [InitOutcome.failed, hqv] at hsucc
      | some s =>
        simp only [hqv] at hsucc ⊢
        exact ⟨_, rfl, rfl, trivial⟩

/-- C4 witness: a successful run (plain positions, two points) stores a draw
command with count 2 and primitive type POINTS. -/
theorem C4_vertex_count_witness :
    ∃ dc, (initTile (fun _ => tableRGBAandConstant) initialContent pntsBuf 0).content.drawCommand
        = some dc ∧ dc.count = 2 ∧ dc.primitiveType = PrimitiveType.POINTS :=
  C4_vertex_count (fun _ => tableRGBAandConstant) initialContent pntsBuf 0 pntsHdr
    2 (by decide) (by decide) (by decide)

/-
C5. Claim: position first, then color iff per-point colors, then normal iff
normals; zero offset/stride everywhere; normalize true for quantized positions,
colors and oct-encoded normals, false for plain floats. The oct-encoded normal
attribute is assembled with normalize = false (source line 400), so the claim
is corrected: normals never normalize.
-/

/-- C5 counterexample: with oct-encoded normals the assembled normal attribute
(slot 2, unsigned byte x2) has normalize = false, where the claim requires
true for packed normal data. -/
theorem C5_counterexample :
    (buildAttributes ⟨false, false, false, true, true⟩ [0] [] [7, 7]).map
        (fun a => (a.index, a.componentDatatype, a.normalize)) =
      [(0, ComponentDatatype.FLOAT, false),
       (2, ComponentDatatype.UNSIGNED_BYTE, false)] := by decide

/-- C5 (amended): for every flag tuple the attribute list is position (slot 0)
first, then color (slot 1) iff per-point colors exist, then normal (slot 2) iff
normals exist; every entry has zero byte offset and zero stride; the position
attribute normalizes iff positions are quantized, the color attribute always
normalizes, and the normal attribute never normalizes (not even when
oct-encoded — this is where the original claim fails); plain float data never
normalizes. -/
theorem C5_amended (q c t n o : Bool) (positions colors normals : List Nat) :
    (buildAttributes ⟨q, c, t, n, o⟩ positions colors normals).map VertexAttribute.index =
      [positionAttributeLocation] ++ (if c then [colorAttributeLocation] else []) ++
        (if n then [normalAttributeLocation] else []) ∧
    (∀ a ∈ buildAttributes ⟨q, c, t, n, o⟩ positions colors normals,
      a.offsetInBytes = 0 ∧ a.strideInBytes = 0) ∧
    (∀ a ∈ buildAttributes ⟨q, c, t, n, o⟩ positions colors normals,
      a.index = positionAttributeLocation → a.normalize = q ∧ a.vertexBuffer = positions) ∧
    (∀ a ∈ buildAttributes ⟨q, c, t, n, o⟩ positions colors normals,
      a.index = colorAttributeLocation → a.normalize = true) ∧
    (∀ a ∈ buildAttributes ⟨q, c, t, n, o⟩ positions colors normals,
      a.index = normalAttributeLocation → a.normalize = false) ∧
    (∀ a ∈ buildAttributes ⟨q, c, t, n, o⟩ positions colors normals,
      a.componentDatatype = ComponentDatatype.FLOAT → a.normalize = false) := by
  cases q <;> cases c <;> cases t <;> cases n <;> cases o <;>
    simp [buildAttributes, positionAttributeLocation, colorAttributeLocation,
      normalAttributeLocation]

/-- C5 witness: the amended theorem applied with all three attributes present. -/
theorem C5_amended_witness :
    (buildAttributes ⟨true, true, true, true, false⟩ [1] [2] [3]).map VertexAttribute.index =
      [0, 1, 2] :=
  (C5_amended true true true true false [1] [2] [3]).1

/-
C6. Claim: depth test always on; translucent disables depth writes, enables
alpha blending and selects the translucent pass; otherwise opaque pass. The
render-state part holds, but line 468 writes Pass.isTranslucent — a nonexistent
member of the pass enum, so the translucent draw command's pass is undefined
rather than the translucent pass. The spec states the intent; the code's member
name is a slip, hence a code bug.
-/

/-- C6: the assembled render state always enables the depth test, and when
translucent disables depth writes and enables alpha blending; but the pass
selected for a translucent draw command is the undefined `Pass.isTranslucent`
(none), not the translucent pass — evaluated both on `drawCommandPass` and on a
full `initialize` run over an RGBA (translucent) table. -/
theorem C6_render_state_eval :
    (buildRenderState true).depthTestEnabled = true ∧
    (buildRenderState false).depthTestEnabled = true ∧
    (buildRenderState true).depthMask = some false ∧
    (buildRenderState true).blending = some BlendingState.ALPHA_BLEND ∧
    (buildRenderState false).depthMask = none ∧
    (buildRenderState false).blending = none ∧
    drawCommandPass false = some Pass.OPAQUE ∧
    drawCommandPass true = Pass_isTranslucent ∧
    Pass_isTranslucent = none ∧
    drawCommandPass true ≠ some Pass.TRANSLUCENT ∧
    ((initTile (fun _ => tableRGBAandConstant) initialContent pntsBuf 0).content.drawCommand).map
        (fun dc => dc.pass) = some none := by decide

/-
C7. Claim: the synthesized shaders only reference declared identifiers, and the
point size written to gl_PointSize comes from the declared point-size uniform.
The vertex shader's main body assigns `gl_PointSize = pointSize;` (source line
326) while the declared uniform is u_pointSize: `pointSize` is declared nowhere,
for every flag tuple. The spec states the intent; the identifier is a slip,
hence a code bug.
-/

/-- C7: for every flag tuple, the synthesized vertex shader references exactly
one undeclared identifier, `pointSize` — the word assigned to gl_PointSize —
and the declared identifiers never include it (the declared uniform is
u_pointSize, which the main body never uses); the fragment shader is clean. -/
theorem C7_pointSize_undeclared :
    (∀ q c t n o : Bool,
      undeclaredIdents (buildVertexShaderSource ⟨q, c, t, n, o⟩) = ["pointSize"] ∧
      pointSizeAssignedFrom (glslTokens (buildVertexShaderSource ⟨q, c, t, n, o⟩)) =
        some "pointSize" ∧
      (declaredIdents (glslTokens (buildVertexShaderSource ⟨q, c, t, n, o⟩))).contains
          "pointSize" = false) ∧
    undeclaredIdents fragmentShaderSource = [] := by decide

/-
C8. Claim: shader synthesis is a pure function of the flag tuple, and flag
tuples differing in an attribute-relevant flag produce different source. The
isTranslucent flag is attribute-relevant (it selects the color attribute width)
yet it is only consulted when per-point colors exist: a translucent
constant-color tile and an opaque no-color tile have flag tuples differing only
in isTranslucent and byte-identical shader source. The claim is corrected to
the pairs where the differing flag actually reaches an attribute.
-/

/-- What the synthesized vertex shader declares, as a function of the flags. -/
theorem attributeSignature_vs :
    ∀ q c t n o : Bool, attributeSignature (buildVertexShaderSource ⟨q, c, t, n, o⟩) =
      [q, c && t, c && !t, n && o, n && !o] := by decide

/-- C8 counterexample: the flag tuples of a translucent constant-color tile and
of a no-color tile differ in the attribute-relevant isTranslucent flag yet
yield byte-identical vertex shader source (and the fragment source is one
constant string), refuting "differing flags never produce identical source". -/
theorem C8_counterexample :
    buildVertexShaderSource ⟨false, false, true, false, false⟩ =
      buildVertexShaderSource flagsNone ∧
    (⟨false, false, true, false, false⟩ : Flags).isTranslucent ≠ flagsNone.isTranslucent := by
  decide

/-- C8 (amended): shader synthesis is deterministic in the flag tuple, and two
flag tuples with a RelevantDiff — one whose differing flag actually selects an
attribute declaration — always produce different vertex shader source. (The
original claim fails only for flags that never reach an attribute: translucency
without per-point colors, oct encoding without normals; see the
counterexample.) -/
theorem C8_amended :
    (∀ f g : Flags, f = g → buildVertexShaderSource f = buildVertexShaderSource g) ∧
    (∀ f g : Flags, RelevantDiff f g →
      buildVertexShaderSource f ≠ buildVertexShaderSource g) := by
  constructor
  · intro f g h
    rw [h]
  · intro f g hrel heq
    have hsig : attributeSignature (buildVertexShaderSource f) =
        attributeSignature (buildVertexShaderSource g) := by rw [heq]
    obtain ⟨q, c, t, n, o⟩ := f
    obtain ⟨q2, c2, t2, n2, o2⟩ := g
    rw [attributeSignature_vs q c t n o, attributeSignature_vs q2 c2 t2 n2 o2] at hsig
    simp only [List.cons.injEq, and_true] at hsig
    obtain ⟨e1, e2, e3, e4, e5⟩ := hsig
    clear heq
    rcases hrel with h | h | h | ⟨hc, hc2, h⟩ | ⟨hn, hn2, h⟩
    · exact h e1
    · cases c <;> cases c2 <;> simp_all
    · cases n <;> cases n2 <;> simp_all
    · subst hc
      subst hc2
      simp_all
    · subst hn
      subst hn2
      simp_all

/-- C8 witness: the amended theorem applied to two tuples differing in
quantization. -/
theorem C8_amended_witness :
    buildVertexShaderSource ⟨true, false, false, false, false⟩ ≠
      buildVertexShaderSource flagsNone :=
  C8_amended.2 ⟨true, false, false, false, false⟩ flagsNone
    (by unfold RelevantDiff; exact Or.inl (by decide))

/-
C9. Claim: resolving the fetch of a destroyed tile is a no-op — no state
mutation, no exception to the caller. The then-callback does observe the
destroyed flag and returns when.reject, but that rejection flows into the
chain's own otherwise handler (source lines 147-150), which sets the FAILED
state and rejects the ready promise on the destroyed object. So the resolution
mutates state after all; the claim is corrected.
-/

/-- C9 counterexample: resolving a successful fetch on a destroyed LOADING
content mutates it — the state becomes FAILED and the ready promise is rejected
(the claim requires no state mutation). -/
theorem C9_counterexample :
    (resolveFetch (fun _ => tableOnlyPoints) true loadingContent
        (FetchResult.success pntsBuf)).content.state = Cesium3DTileContentState.FAILED ∧
    (resolveFetch (fun _ => tableOnlyPoints) true loadingContent
        (FetchResult.success pntsBuf)).content.readyPromise =
      PromiseState.rejected "tileset is destroyed" ∧
    loadingContent.state ≠ Cesium3DTileContentState.FAILED := by decide

/-- C9 (amended): resolving a successful fetch on a destroyed content never runs
`initialize` (no decode, no READY transition, no GPU work) and propagates no
exception to the caller, but it does mutate the destroyed content: the state is
set to FAILED and a pending ready promise is rejected with the destroyed-check
message. -/
theorem C9_amended (pj : List Nat → FeatureTableJSON) (c : ContentState)
    (buf : List Nat) (hready : c.readyPromise = PromiseState.pending) :
    (resolveFetch pj true c (FetchResult.success buf)).ranInitTile = false ∧
    (resolveFetch pj true c (FetchResult.success buf)).thrownToCaller = none ∧
    (resolveFetch pj true c (FetchResult.success buf)).content =
      { c with
          state := Cesium3DTileContentState.FAILED
          readyPromise := PromiseState.rejected "tileset is destroyed" } := by
  unfold resolveFetch
  refine ⟨rfl, rfl, ?_⟩
  rw [hready]
  rfl

/-- C9 witness: the amended theorem applied to a destroyed LOADING content. -/
theorem C9_amended_witness :
    (resolveFetch (fun _ => tableBothPositions) true loadingContent
        (FetchResult.success pntsBuf)).ranInitTile = false ∧
    (resolveFetch (fun _ => tableBothPositions) true loadingContent
        (FetchResult.success pntsBuf)).thrownToCaller = none :=
  ⟨(C9_amended (fun _ => tableBothPositions) loadingContent pntsBuf (by decide)).1,
   (C9_amended (fun _ => tableBothPositions) loadingContent pntsBuf (by decide)).2.1⟩

/-
C10. Claim: the feature-table JSON begins at byte b+28 and the binary blob
immediately follows it. The header the source walks is 20 bytes (magic,
version, byteLength, featureTableJSONByteLength, featureTableBinaryByteLength —
five 4-byte fields, exactly the fields the spec's own table lists), so the JSON
begins at b+20; the claim is corrected.
-/

/-- C10 counterexample: parsing the minimal container at offset 0 places the
feature-table JSON at byte 20, not 28. -/
theorem C10_counterexample :
    (parseHeader pntsBuf 0).map ParsedHeader.featureTableJSONStart = Except.ok 20 ∧
    (20 : Nat) ≠ 0 + 28 := by decide

/-- C10 (amended): for every buffer successfully parsed at starting offset b,
the feature-table JSON bytes begin at offset b+20 (fixed 20-byte little-endian
header prefix), and the feature-table binary blob immediately follows the JSON
(it begins at the JSON start plus the JSON byte length). -/
theorem C10_amended (buf : List Nat) (b : Nat) (hdr : ParsedHeader)
    (hok : parseHeader buf b = Except.ok hdr) :
    hdr.featureTableJSONStart = b + 20 ∧
    hdr.featureTableJSONBytes = (buf.drop (b + 20)).take hdr.featureTableJSONByteLength ∧
    hdr.featureTableBinaryStart = hdr.featureTableJSONStart + hdr.featureTableJSONByteLength ∧
    hdr.featureTableBinary =
      (buf.drop (hdr.featureTableJSONStart + hdr.featureTableJSONByteLength)).take
        hdr.featureTableBinaryByteLength := by
  obtain ⟨-, -, -, hh⟩ := parseHeader_ok_facts buf b hdr hok
  subst hh
  exact ⟨rfl, rfl, rfl, rfl⟩

/-- C10 witness: the amended theorem applied to the minimal container. -/
theorem C10_amended_witness :
    pntsHdr.featureTableJSONStart = 0 + 20 ∧
    pntsHdr.featureTableBinaryStart =
      pntsHdr.featureTableJSONStart + pntsHdr.featureTableJSONByteLength :=
  ⟨(C10_amended pntsBuf 0 pntsHdr (by decide)).1,
   (C10_amended pntsBuf 0 pntsHdr (by decide)).2.2.1⟩

end Pnts
